import Mathlib

/-!
# Verification of the MicroStack cluster-join trust-bootstrap core

This file is a shallow embedding, in Lean 4, of the trust-bootstrap core of
the MicroStack repository:

* `tools/cluster/cluster/add_compute.py` — credential issuer / token encoder;
* `tools/init/init/questions/clustering.py` — join-client token decoder and
  validator (`ConnectionString._validate` and its helpers);
* `tools/cluster/cluster/client.py` — join-client HTTP logic (`join`);
* `tools/cluster/cluster/daemon.py` — join-server `POST /join` handler;
* `tools/init/init/cluster_tls.py` — certificate provisioner
  (`generate_selfsigned`).

Python byte strings are modelled as `List Nat` (each element `< 256`);
Python text strings are modelled by their code points, also `List Nat`
(for the ASCII strings this code produces, code points and UTF-8 bytes
coincide).  Fallible Python code is modelled with `Except PyExc` where
`PyExc` carries the raised exception class; `try/except C` blocks are
translated to explicit matches that test whether the raised class is a
subclass of the handled class, exactly mirroring Python 3 semantics
(in particular `UnicodeEncodeError` and `binascii.Error` are subclasses
of `ValueError`, not of `TypeError`).

External-library functions called by the core (CPython `base64`,
`msgpack`, `netaddr`, `semantic_version`, Flask/urllib3 plumbing) are
modelled at the fidelity the theorems rely on; each such model carries a
comment stating its scope.
-/

namespace Microstack

/-! ## Python exception classes

Only the classes that the modelled code can raise or catch.  The
subclass relation mirrors CPython 3: `UnicodeEncodeError <: ValueError`,
`binascii.Error <: ValueError`, and the msgpack exceptions are caught by
their dedicated `except` clauses (plus the catch-all `except Exception`)
in `ConnectionString._validate`, so their exact superclasses are not
load-bearing. -/

inductive PyExcClass where
  | typeError
  | valueError
  | unicodeEncodeError
  | binasciiError
  | attributeError
  | msgpackExtraData
  | msgpackFormatError
  | msgpackOtherError
  | invalidAnswer
  deriving DecidableEq, Repr

/-- `isSubclassOf c h` : an `except h` clause catches a raised exception of
class `c` (Python 3 class hierarchy). -/
def PyExcClass.isSubclassOf : PyExcClass → PyExcClass → Bool
  | c, h =>
    c = h ||
    -- UnicodeEncodeError, binascii.Error, msgpack.exceptions.ExtraData and
    -- msgpack.exceptions.FormatError are all ValueError subclasses.
    ((c = .unicodeEncodeError || c = .binasciiError ||
      c = .msgpackExtraData || c = .msgpackFormatError) && h = .valueError)

structure PyExc where
  cls : PyExcClass
  deriving DecidableEq, Repr

/-! ## Byte-level utilities -/

/-- Big-endian encoding of `n` on `w` bytes (the low `8*w` bits of `n`). -/
def beBytes : Nat → Nat → List Nat
  | 0, _ => []
  | w + 1, n => (n / 256 ^ w) % 256 :: beBytes w n

/-- Big-endian read of `w` bytes from the front of a byte list. -/
def readBE : Nat → List Nat → Option (Nat × List Nat)
  | 0, bs => some (0, bs)
  | _ + 1, [] => none
  | w + 1, b :: bs =>
    match readBE w bs with
    | some (n, rest) => some (b * 256 ^ w + n, rest)
    | none => none

theorem readBE_beBytes (w : Nat) : ∀ (n : Nat) (rest : List Nat),
    readBE w (beBytes w n ++ rest) = some (n % 256 ^ w, rest) := by
  induction w with
  | zero => intro n rest; simp [beBytes, readBE, Nat.mod_one]
  | succ w ih =>
    intro n rest
    simp only [beBytes, List.cons_append, readBE, List.append_eq, ih]
    have h2 : n % 256 ^ (w + 1) = n % 256 ^ w + 256 ^ w * (n / 256 ^ w % 256) := by
      rw [pow_succ, Nat.mod_mul]
    simp only [Option.some.injEq, Prod.mk.injEq, h2, and_true]
    ring

/-! ## CPython `base64`

`oslo_serialization.base64.encode_as_text` is `base64.b64encode` followed
by an ASCII decode; `decode_as_bytes` is `base64.b64decode` (default
lenient mode).  The model below is byte-exact on every input
`b64encode` can produce and on every pad-free input; the lenient
handling of stray alphabet characters *after* a padding sign, which no
theorem exercises, is simplified (characters outside the alphabet are
discarded exactly as CPython does). -/

/-- The base64 alphabet, as ASCII codes: index `n < 64` to its character. -/
def sixBitToChar (n : Nat) : Nat :=
  if n < 26 then 65 + n
  else if n < 52 then 97 + (n - 26)
  else if n < 62 then 48 + (n - 52)
  else if n = 62 then 43
  else 47

def isB64Char (c : Nat) : Bool :=
  (65 ≤ c && c ≤ 90) || (97 ≤ c && c ≤ 122) || (48 ≤ c && c ≤ 57) ||
    c == 43 || c == 47

def charToSixBit (c : Nat) : Option Nat :=
  if 65 ≤ c ∧ c ≤ 90 then some (c - 65)
  else if 97 ≤ c ∧ c ≤ 122 then some (c - 97 + 26)
  else if 48 ≤ c ∧ c ≤ 57 then some (c - 48 + 52)
  else if c = 43 then some 62
  else if c = 47 then some 63
  else none

/-- `base64.b64encode`, producing ASCII codes ( `61` is `=` padding). -/
def b64encode : List Nat → List Nat
  | a :: b :: c :: rest =>
    sixBitToChar (a / 4) :: sixBitToChar (a % 4 * 16 + b / 16) ::
      sixBitToChar (b % 16 * 4 + c / 64) :: sixBitToChar (c % 64) ::
      b64encode rest
  | [a, b] =>
    [sixBitToChar (a / 4), sixBitToChar (a % 4 * 16 + b / 16),
      sixBitToChar (b % 16 * 4), 61]
  | [a] => [sixBitToChar (a / 4), sixBitToChar (a % 4 * 16), 61, 61]
  | [] => []

/-- Decode the base64 data characters (padding already stripped), four at a
time; `pad` records whether a padding sign was present for the final
partial group, as CPython requires. -/
def decodeQuads : List Nat → Bool → Option (List Nat)
  | c1 :: c2 :: c3 :: c4 :: rest, pad =>
    match charToSixBit c1, charToSixBit c2, charToSixBit c3,
        charToSixBit c4, decodeQuads rest pad with
    | some n1, some n2, some n3, some n4, some tl =>
      some ((n1 * 4 + n2 / 16) :: (n2 % 16 * 16 + n3 / 4) ::
        (n3 % 4 * 64 + n4) :: tl)
    | _, _, _, _, _ => none
  | [c1, c2, c3], pad =>
    if pad then
      match charToSixBit c1, charToSixBit c2, charToSixBit c3 with
      | some n1, some n2, some n3 =>
        some [n1 * 4 + n2 / 16, n2 % 16 * 16 + n3 / 4]
      | _, _, _ => none
    else none
  | [c1, c2], pad =>
    if pad then
      match charToSixBit c1, charToSixBit c2 with
      | some n1, some n2 => some [n1 * 4 + n2 / 16]
      | _, _ => none
    else none
  | [_], _ => none
  | [], _ => some []

/-- `base64.b64decode` in its default lenient mode: characters outside
the alphabet and `=` are discarded; a final group of one data character,
or of two or three data characters without padding, raises
`binascii.Error` (a `ValueError` subclass). -/
def pyB64decode (s : List Nat) : Except PyExc (List Nat) :=
  let t := s.filter (fun c => isB64Char c || c == 61)
  let data := t.takeWhile (fun c => c != 61)
  let pad := data.length < t.length
  match decodeQuads data pad with
  | some r => .ok r
  | none => .error ⟨.binasciiError⟩

/-- `str.encode('ascii')`: identity on code points `< 128`, raises
`UnicodeEncodeError` (a `ValueError` subclass) otherwise. -/
def pyEncodeAscii (s : List Nat) : Except PyExc (List Nat) :=
  if s.all (fun c => c < 128) then .ok s else .error ⟨.unicodeEncodeError⟩

section B64Lemmas

/-- Round-trip facts about a single six-bit group, checked by evaluation. -/
theorem sixBit_inverse : ∀ n < 64, charToSixBit (sixBitToChar n) = some n := by
  decide

theorem sixBit_isB64 : ∀ n < 64, isB64Char (sixBitToChar n) = true := by
  decide

theorem sixBit_ne_pad : ∀ n < 64, ((sixBitToChar n : Nat) != 61) = true := by
  decide

theorem sixBit_lt_128 : ∀ n < 64, sixBitToChar n < 128 := by
  decide

/-- Structural induction principle matching `b64encode`'s three-byte
grouping. -/
theorem chunk3Induction {P : List Nat → Prop} (h0 : P []) (h1 : ∀ a, P [a])
    (h2 : ∀ a b, P [a, b])
    (h3 : ∀ a b c rest, P rest → P (a :: b :: c :: rest)) :
    ∀ l, P l
  | [] => h0
  | [a] => h1 a
  | [a, b] => h2 a b
  | a :: b :: c :: rest =>
    h3 a b c rest (chunk3Induction h0 h1 h2 h3 rest)

/-- Every character emitted by `b64encode` on in-range bytes is either an
alphabet character (the image of a six-bit group) or the padding sign. -/
theorem b64encode_mem (bs : List Nat) (h : ∀ b ∈ bs, b < 256) :
    ∀ c ∈ b64encode bs, (∃ n, n < 64 ∧ c = sixBitToChar n) ∨ c = 61 := by
  induction bs using chunk3Induction with
  | h0 => simp [b64encode]
  | h1 a =>
    have ha := h a (by simp)
    simp only [b64encode, List.mem_cons, List.not_mem_nil, or_false]
    rintro c (rfl | rfl | rfl | rfl)
    · exact Or.inl ⟨a / 4, by omega, rfl⟩
    · exact Or.inl ⟨a % 4 * 16, by omega, rfl⟩
    · exact Or.inr rfl
    · exact Or.inr rfl
  | h2 a b =>
    have ha := h a (by simp)
    have hb := h b (by simp)
    simp only [b64encode, List.mem_cons, List.not_mem_nil, or_false]
    rintro c (rfl | rfl | rfl | rfl)
    · exact Or.inl ⟨a / 4, by omega, rfl⟩
    · exact Or.inl ⟨a % 4 * 16 + b / 16, by omega, rfl⟩
    · exact Or.inl ⟨b % 16 * 4, by omega, rfl⟩
    · exact Or.inr rfl
  | h3 a b c rest ih =>
    have ha := h a (by simp)
    have hb := h b (by simp)
    have hc := h c (by simp)
    intro x hx
    simp only [b64encode, List.mem_cons] at hx
    rcases hx with rfl | rfl | rfl | rfl | hx
    · exact Or.inl ⟨a / 4, by omega, rfl⟩
    · exact Or.inl ⟨a % 4 * 16 + b / 16, by omega, rfl⟩
    · exact Or.inl ⟨b % 16 * 4 + c / 64, by omega, rfl⟩
    · exact Or.inl ⟨c % 64, by omega, rfl⟩
    · exact ih (fun y hy => h y (by simp [hy])) x hx

theorem b64encode_chars_lt_128 (bs : List Nat) (h : ∀ b ∈ bs, b < 256) :
    ∀ c ∈ b64encode bs, c < 128 := by
  intro c hc
  rcases b64encode_mem bs h c hc with ⟨n, hn, rfl⟩ | rfl
  · exact sixBit_lt_128 n hn
  · omega

theorem b64encode_filter_id (bs : List Nat) (h : ∀ b ∈ bs, b < 256) :
    (b64encode bs).filter (fun c => isB64Char c || c == 61) = b64encode bs := by
  rw [List.filter_eq_self]
  intro c hc
  rcases b64encode_mem bs h c hc with ⟨n, hn, rfl⟩ | rfl
  · simp [sixBit_isB64 n hn]
  · simp

/-- Main decoding invariant of the encoder output: the data characters
(everything before the first padding sign) decode back to the original
bytes, for any pad flag that is `true` whenever the encoder emitted
padding (i.e. whenever the byte count is not a multiple of three). -/
theorem b64_decode_aux (bs : List Nat) (h : ∀ b ∈ bs, b < 256) :
    (bs.length % 3 ≠ 0 →
      ((b64encode bs).takeWhile (fun c => c != 61)).length <
        (b64encode bs).length) ∧
    ∀ pad : Bool, (bs.length % 3 ≠ 0 → pad = true) →
      decodeQuads ((b64encode bs).takeWhile (fun c => c != 61)) pad =
        some bs := by
  induction bs using chunk3Induction with
  | h0 =>
    refine ⟨fun hc => absurd rfl hc, fun pad _ => ?_⟩
    simp [b64encode, decodeQuads]
  | h1 a =>
    have ha := h a (by simp)
    have e1 := sixBit_ne_pad (a / 4) (by omega)
    have e2 := sixBit_ne_pad (a % 4 * 16) (by omega)
    have i1 := sixBit_inverse (a / 4) (by omega)
    have i2 := sixBit_inverse (a % 4 * 16) (by omega)
    constructor
    · intro _
      simp [b64encode, List.takeWhile_cons, e1, e2]
    · intro pad hpad
      have hp : pad = true := hpad (by simp)
      subst hp
      simp only [b64encode, List.takeWhile_cons, e1, e2, if_true]
      norm_num [decodeQuads, i1, i2]
      omega
  | h2 a b =>
    have ha := h a (by simp)
    have hb := h b (by simp)
    have e1 := sixBit_ne_pad (a / 4) (by omega)
    have e2 := sixBit_ne_pad (a % 4 * 16 + b / 16) (by omega)
    have e3 := sixBit_ne_pad (b % 16 * 4) (by omega)
    have i1 := sixBit_inverse (a / 4) (by omega)
    have i2 := sixBit_inverse (a % 4 * 16 + b / 16) (by omega)
    have i3 := sixBit_inverse (b % 16 * 4) (by omega)
    constructor
    · intro _
      simp [b64encode, List.takeWhile_cons, e1, e2, e3]
    · intro pad hpad
      have hp : pad = true := hpad (by simp)
      subst hp
      simp only [b64encode, List.takeWhile_cons, e1, e2, e3, if_true]
      norm_num [decodeQuads, i1, i2, i3]
      constructor
      · omega
      · omega
  | h3 a b c rest ih =>
    have ha := h a (by simp)
    have hb := h b (by simp)
    have hc := h c (by simp)
    have ihr := ih (fun y hy => h y (by simp [hy]))
    have e1 := sixBit_ne_pad (a / 4) (by omega)
    have e2 := sixBit_ne_pad (a % 4 * 16 + b / 16) (by omega)
    have e3 := sixBit_ne_pad (b % 16 * 4 + c / 64) (by omega)
    have e4 := sixBit_ne_pad (c % 64) (by omega)
    have i1 := sixBit_inverse (a / 4) (by omega)
    have i2 := sixBit_inverse (a % 4 * 16 + b / 16) (by omega)
    have i3 := sixBit_inverse (b % 16 * 4 + c / 64) (by omega)
    have i4 := sixBit_inverse (c % 64) (by omega)
    have hlen : (a :: b :: c :: rest).length % 3 = rest.length % 3 := by
      simp only [List.length_cons]
      omega
    constructor
    · intro hne
      rw [hlen] at hne
      have h1 := ihr.1 hne
      simp only [b64encode, List.takeWhile_cons, e1, e2, e3, e4, if_true,
        List.length_cons]
      omega
    · intro pad hpad
      rw [hlen] at hpad
      have h2 := ihr.2 pad hpad
      simp only [b64encode, List.takeWhile_cons, e1, e2, e3, e4, if_true,
        decodeQuads, i1, i2, i3, i4, h2]
      simp only [Option.some.injEq, List.cons.injEq]
      refine ⟨by omega, by omega, by omega, trivial⟩

/-- `base64.b64decode` inverts `base64.b64encode` on every byte string. -/
theorem pyB64decode_b64encode (bs : List Nat) (h : ∀ b ∈ bs, b < 256) :
    pyB64decode (b64encode bs) = .ok bs := by
  have haux := b64_decode_aux bs h
  have hdec := haux.2 _ (fun hne => decide_eq_true (haux.1 hne))
  simp only [pyB64decode, b64encode_filter_id bs h, hdec]

end B64Lemmas

/-! ## msgpack (`oslo_serialization.msgpackutils`)

`msgpackutils.dumps` is `msgpack.packb(..., use_bin_type=True)` and
`msgpackutils.loads` is `msgpack.unpackb(..., raw=False)` (msgpack 0.6,
the generation this code ships with: map keys are not restricted to
strings).  The decoder below covers the full msgpack opcode table, so
every document real msgpack can decode is decoded here too: strings (as
their UTF-8 bytes; the `raw=False` UTF-8 re-decoding step is the
identity on the ASCII data this system produces and is not re-modelled),
byte strings, nil, booleans, integers, floats (their numeric value is
never observed by the modelled code, only their dynamic type, so only
the raw bits are kept), arrays, maps, and ext values (which
`msgpackutils`' registry turns into Python objects such as datetimes —
observably non-`dict`, non-sized values here).  The reserved opcode
`0xc1` and truncated documents fail, as in real msgpack; all decode
failures are caught by `ConnectionString._validate`'s `except` chain, so
their exact class is not load-bearing. -/

inductive MVal where
  | mstr : List Nat → MVal
  | mbin : List Nat → MVal
  | mnil : MVal
  | mbool : Bool → MVal
  | mint : Int → MVal
  /-- a float, by its raw IEEE bits (the value itself is unobservable by
  the modelled code paths). -/
  | mfloat : Nat → MVal
  | marr : List MVal → MVal
  /-- a decoded map, as its key/value pairs in decode order.  A Python
  dict collapses duplicate keys (last wins); the association list keeps
  them, which is observationally equal for everything the modelled code
  does with a decoded map: `.get` (modelled last-wins), and emptiness. -/
  | mmap : List (MVal × MVal) → MVal
  /-- an ext value (type code and payload): `msgpackutils`' handler
  registry deserializes these into Python objects (datetime, UUID, …) —
  all the modelled code could observe is that they are not dicts and
  have no `len`/string methods. -/
  | mext : Nat → List Nat → MVal

/-- Top-level msgpack document: one map, or one scalar value. -/
inductive MTop where
  | map : List (MVal × MVal) → MTop
  | scalar : MVal → MTop

/-- Code points of a Lean string literal (used for the ASCII key names and
messages; for ASCII, code points coincide with UTF-8 bytes). -/
def strBytes (s : String) : List Nat := s.toList.map Char.toNat

/-- msgpack `str` encoding: fixstr / str8 / str16 / str32 by length. -/
def packStr (s : List Nat) : List Nat :=
  if s.length ≤ 31 then (160 + s.length) :: s
  else if s.length ≤ 255 then 217 :: s.length :: s
  else if s.length ≤ 65535 then 218 :: beBytes 2 s.length ++ s
  else 219 :: beBytes 4 s.length ++ s

/-- msgpack `bin` encoding (`use_bin_type=True`): bin8 / bin16 / bin32. -/
def packBin (s : List Nat) : List Nat :=
  if s.length ≤ 255 then 196 :: s.length :: s
  else if s.length ≤ 65535 then 197 :: beBytes 2 s.length ++ s
  else 198 :: beBytes 4 s.length ++ s

/-- Read `n` payload bytes, or fail if the buffer is shorter. -/
def takeN (n : Nat) (bs : List Nat) (mk : List Nat → MVal) :
    Option (MVal × List Nat) :=
  if bs.length < n then none else some (mk (bs.take n), bs.drop n)

/-- Read an ext value: the type-code byte, then `len` payload bytes. -/
def takeExt (len : Nat) (bs : List Nat) : Option (MVal × List Nat) :=
  match bs with
  | c :: rest =>
    if rest.length < len then none
    else some (.mext c (rest.take len), rest.drop len)
  | [] => none

/-- Two's-complement value of a `w`-byte signed integer read as `n`. -/
def sintVal (w n : Nat) : Int :=
  if n < 2 ^ (8 * w - 1) then Int.ofNat n else Int.ofNat n - Int.ofNat (2 ^ (8 * w))

/-- Chunk a decoded key-value stream (of even length by construction)
into pairs. -/
def pairUp : List MVal → List (MVal × MVal)
  | k :: v :: rest => (k, v) :: pairUp rest
  | _ => []

/-- Decode one msgpack value whose opcode `b` is not a container opcode
(containers — fixmap, fixarray, array16/32, map16/32 — recurse and are
handled in `unpackN`; this covers every other row of the opcode table). -/
def unpackSimple (b : Nat) (bs : List Nat) : Option (MVal × List Nat) :=
  if b ≤ 127 then some (MVal.mint (Int.ofNat b), bs)        -- positive fixint
  else if 160 ≤ b ∧ b ≤ 191 then takeN (b - 160) bs .mstr   -- fixstr
  else if b = 192 then some (.mnil, bs)                     -- nil
    else if b = 194 then some (.mbool false, bs)
    else if b = 195 then some (.mbool true, bs)
    else if b = 196 then                                    -- bin8
      match bs with
      | n :: rest => takeN n rest .mbin
      | [] => none
    else if b = 197 then                                    -- bin16
      match readBE 2 bs with
      | some (n, rest) => takeN n rest .mbin
      | none => none
    else if b = 198 then                                    -- bin32
      match readBE 4 bs with
      | some (n, rest) => takeN n rest .mbin
      | none => none
    else if b = 199 then                                    -- ext8
      match bs with
      | n :: rest => takeExt n rest
      | [] => none
    else if b = 200 then                                    -- ext16
      match readBE 2 bs with
      | some (n, rest) => takeExt n rest
      | none => none
    else if b = 201 then                                    -- ext32
      match readBE 4 bs with
      | some (n, rest) => takeExt n rest
      | none => none
    else if b = 202 then                                    -- float32
      match readBE 4 bs with
      | some (n, rest) => some (.mfloat n, rest)
      | none => none
    else if b = 203 then                                    -- float64
      match readBE 8 bs with
      | some (n, rest) => some (.mfloat n, rest)
      | none => none
    else if b = 204 then                                    -- uint8
      match bs with
      | n :: rest => some (.mint (Int.ofNat n), rest)
      | [] => none
    else if b = 205 then                                    -- uint16
      match readBE 2 bs with
      | some (n, rest) => some (.mint (Int.ofNat n), rest)
      | none => none
    else if b = 206 then                                    -- uint32
      match readBE 4 bs with
      | some (n, rest) => some (.mint (Int.ofNat n), rest)
      | none => none
    else if b = 207 then                                    -- uint64
      match readBE 8 bs with
      | some (n, rest) => some (.mint (Int.ofNat n), rest)
      | none => none
    else if b = 208 then                                    -- int8
      match bs with
      | n :: rest => some (.mint (sintVal 1 n), rest)
      | [] => none
    else if b = 209 then                                    -- int16
      match readBE 2 bs with
      | some (n, rest) => some (.mint (sintVal 2 n), rest)
      | none => none
    else if b = 210 then                                    -- int32
      match readBE 4 bs with
      | some (n, rest) => some (.mint (sintVal 4 n), rest)
      | none => none
    else if b = 211 then                                    -- int64
      match readBE 8 bs with
      | some (n, rest) => some (.mint (sintVal 8 n), rest)
      | none => none
    else if 212 ≤ b ∧ b ≤ 216 then takeExt (2 ^ (b - 212)) bs  -- fixext 1/2/4/8/16
    else if b = 217 then                                    -- str8
      match bs with
      | n :: rest => takeN n rest .mstr
      | [] => none
    else if b = 218 then                                    -- str16
      match readBE 2 bs with
      | some (n, rest) => takeN n rest .mstr
      | none => none
    else if b = 219 then                                    -- str32
      match readBE 4 bs with
      | some (n, rest) => takeN n rest .mstr
      | none => none
    else if 224 ≤ b ∧ b ≤ 255 then                          -- negative fixint
      some (.mint (Int.ofNat b - 256), bs)
    else none
    -- remaining opcodes: 0xc1 is reserved (never emitted, raises
    -- FormatError); the container opcodes are dispatched by `unpackN`
    -- before `unpackSimple` is consulted.

/-- Decode `n0` consecutive msgpack values from the front of a byte list,
over the full opcode table.  `fuel` bounds the total number of values
decoded (one unit per value, container elements included); every value
consumes at least one input byte, so the `input length + 1` fuel that
`msgpackLoads` supplies never runs out on a document real msgpack can
decode.  Recursion is structural on `fuel`. -/
def unpackN : Nat → Nat → List Nat → Option (List MVal × List Nat)
  | _, 0, bs0 => some ([], bs0)
  | 0, _ + 1, _ => none
  | _ + 1, _ + 1, [] => none
  | fuel + 1, n + 1, b :: bs =>
    match
    (if 128 ≤ b ∧ b ≤ 143 then                              -- fixmap
      match unpackN fuel (2 * (b - 128)) bs with
      | some (vs, rest) => some (MVal.mmap (pairUp vs), rest)
      | none => none
    else if 144 ≤ b ∧ b ≤ 159 then                          -- fixarray
      match unpackN fuel (b - 144) bs with
      | some (vs, rest) => some (.marr vs, rest)
      | none => none
    else if b = 220 then                                    -- array16
      match readBE 2 bs with
      | some (m, rest) =>
        match unpackN fuel m rest with
        | some (vs, rest2) => some (.marr vs, rest2)
        | none => none
      | none => none
    else if b = 221 then                                    -- array32
      match readBE 4 bs with
      | some (m, rest) =>
        match unpackN fuel m rest with
        | some (vs, rest2) => some (.marr vs, rest2)
        | none => none
      | none => none
    else if b = 222 then                                    -- map16
      match readBE 2 bs with
      | some (m, rest) =>
        match unpackN fuel (2 * m) rest with
        | some (vs, rest2) => some (.mmap (pairUp vs), rest2)
        | none => none
      | none => none
    else if b = 223 then                                    -- map32
      match readBE 4 bs with
      | some (m, rest) =>
        match unpackN fuel (2 * m) rest with
        | some (vs, rest2) => some (.mmap (pairUp vs), rest2)
        | none => none
      | none => none
    else unpackSimple b bs) with
    | some (v, rest) =>
      match unpackN fuel n rest with
      | some (vs, rest2) => some (v :: vs, rest2)
      | none => none
    | none => none

/-- `msgpackutils.loads`: one top-level document; trailing bytes raise
`msgpack.exceptions.ExtraData`, other decode failures raise the other
msgpack/`ValueError` classes — `_validate` catches all of them. -/
def msgpackLoads (bs : List Nat) : Except PyExc MTop :=
  match unpackN (bs.length + 1) 1 bs with
  | some ([.mmap ps], []) => .ok (.map ps)
  | some ([v], []) => .ok (.scalar v)
  | some (_, _ :: _) => .error ⟨.msgpackExtraData⟩
  | _ => .error ⟨.msgpackFormatError⟩

/-- Python `dict` built by inserting the decoded pairs in order, then
`dict.get(key)`: the last occurrence of a key wins; a missing key gives
`None`, which the model identifies with msgpack nil (`mnil`) — they are
the same Python object.  Only `str` keys can match the `str` key the
code looks up. -/
def pyDictGet (ps : List (MVal × MVal)) (k : List Nat) : MVal :=
  (((ps.reverse.find? (fun p =>
      match p.1 with
      | .mstr s => s == k
      | _ => false)).map Prod.snd)).getD .mnil

/-! ## The connection token (`add_compute.add_compute`, lines 94–105)

`add_compute` assembles
`{'hostname': …, 'fingerprint': …, 'id': …, 'secret': …}` (a Python dict
preserves this insertion order and msgpack packs it in order) and returns
`base64.encode_as_text(msgpackutils.dumps(data))`. -/

structure TokenFields where
  hostname : List Nat
  fingerprint : List Nat
  id : List Nat
  secret : List Nat
  deriving DecidableEq, Repr

/-- `msgpackutils.dumps` of the `add_compute` dict: a fixmap of four
entries in insertion order. -/
def packToken (t : TokenFields) : List Nat :=
  132 :: (packStr (strBytes "hostname") ++ packStr t.hostname ++
    packStr (strBytes "fingerprint") ++ packBin t.fingerprint ++
    packStr (strBytes "id") ++ packStr t.id ++
    packStr (strBytes "secret") ++ packStr t.secret)

/-- The printable connection string produced by `add_compute`
(`base64.encode_as_text(msgpackutils.dumps(data))`). -/
def addComputeConnectionString (t : TokenFields) : List Nat :=
  b64encode (packToken t)

/-- The decoded entry list of a well-formed token. -/
def tokenEntries (t : TokenFields) : List (MVal × MVal) :=
  [(.mstr (strBytes "hostname"), .mstr t.hostname),
   (.mstr (strBytes "fingerprint"), .mbin t.fingerprint),
   (.mstr (strBytes "id"), .mstr t.id),
   (.mstr (strBytes "secret"), .mstr t.secret)]

/-- `base64.decode_as_bytes(answer.encode('ascii'))` from
`ConnectionString._validate`, line 58. -/
def decodeAsBytes (answer : List Nat) : Except PyExc (List Nat) :=
  match pyEncodeAscii answer with
  | .ok ascii => pyB64decode ascii
  | .error e => .error e

section MsgpackLemmas

theorem takeN_exact (s rest : List Nat) (mk : List Nat → MVal) :
    takeN s.length (s ++ rest) mk = some (mk s, rest) := by
  unfold takeN
  rw [if_neg (by simp), List.take_left, List.drop_left]

/-- A str-encoded byte string decodes off the front of a value sequence. -/
theorem unpackN_packStr (fuel n : Nat) (s rest : List Nat)
    (h : s.length < 4294967296) (tl : List MVal) (rest2 : List Nat)
    (hrest : unpackN fuel n rest = some (tl, rest2)) :
    unpackN (fuel + 1) (n + 1) (packStr s ++ rest) =
      some (.mstr s :: tl, rest2) := by
  unfold packStr
  by_cases h1 : s.length ≤ 31
  · rw [if_pos h1]
    simp only [List.cons_append, unpackN]
    rw [if_neg (by omega), if_neg (by omega), if_neg (by omega),
      if_neg (by omega), if_neg (by omega), if_neg (by omega)]
    unfold unpackSimple
    rw [if_neg (by omega), if_pos (by omega)]
    have h160 : 160 + s.length - 160 = s.length := by omega
    simp only [List.append_eq]
    rw [h160, takeN_exact]
    simp only []
    rw [hrest]
  · rw [if_neg h1]
    by_cases h2 : s.length ≤ 255
    · rw [if_pos h2]
      simp [List.cons_append, unpackN, unpackSimple, takeN_exact, hrest]
    · rw [if_neg h2]
      by_cases h3 : s.length ≤ 65535
      · rw [if_pos h3]
        have hm : s.length % 65536 = s.length := Nat.mod_eq_of_lt (by omega)
        simp [List.cons_append, List.append_assoc, unpackN, unpackSimple,
          readBE_beBytes, hm, takeN_exact, hrest]
      · rw [if_neg h3]
        have hm : s.length % 4294967296 = s.length := Nat.mod_eq_of_lt (by omega)
        simp [List.cons_append, List.append_assoc, unpackN, unpackSimple,
          readBE_beBytes, hm, takeN_exact, hrest]

/-- A bin-encoded byte string decodes off the front of a value sequence. -/
theorem unpackN_packBin (fuel n : Nat) (s rest : List Nat)
    (h : s.length < 4294967296) (tl : List MVal) (rest2 : List Nat)
    (hrest : unpackN fuel n rest = some (tl, rest2)) :
    unpackN (fuel + 1) (n + 1) (packBin s ++ rest) =
      some (.mbin s :: tl, rest2) := by
  unfold packBin
  by_cases h2 : s.length ≤ 255
  · rw [if_pos h2]
    simp [List.cons_append, unpackN, unpackSimple, takeN_exact, hrest]
  · rw [if_neg h2]
    by_cases h3 : s.length ≤ 65535
    · rw [if_pos h3]
      have hm : s.length % 65536 = s.length := Nat.mod_eq_of_lt (by omega)
      simp [List.cons_append, List.append_assoc, unpackN, unpackSimple,
        readBE_beBytes, hm, takeN_exact, hrest]
    · rw [if_neg h3]
      have hm : s.length % 4294967296 = s.length := Nat.mod_eq_of_lt (by omega)
      simp [List.cons_append, List.append_assoc, unpackN, unpackSimple,
        readBE_beBytes, hm, takeN_exact, hrest]

/-- Keys of the token map are short ASCII strings; their encodings decode
back in front of anything. -/
theorem unpackN_key (fuel n : Nat) (k : String) (rest : List Nat)
    (h : (strBytes k).length ≤ 31) (tl : List MVal) (rest2 : List Nat)
    (hrest : unpackN fuel n rest = some (tl, rest2)) :
    unpackN (fuel + 1) (n + 1) (packStr (strBytes k) ++ rest) =
      some (.mstr (strBytes k) :: tl, rest2) :=
  unpackN_packStr fuel n _ rest (by omega) tl rest2 hrest

/-- One decoding step on a fixmap opcode: read `2 * (b - 128)` values,
pair them up, and continue with the remaining value count. -/
theorem unpackN_fixmap (fuel n : Nat) (b : Nat) (bs : List Nat)
    (hb1 : 128 ≤ b) (hb2 : b ≤ 143) :
    unpackN (fuel + 1) (n + 1) (b :: bs) =
      match
        (match unpackN fuel (2 * (b - 128)) bs with
         | some (vs, rest) => some (MVal.mmap (pairUp vs), rest)
         | none => none) with
      | some (v, rest) =>
        match unpackN fuel n rest with
        | some (vs, rest2) => some (v :: vs, rest2)
        | none => none
      | none => none := by
  simp only [unpackN]
  rw [if_pos ⟨hb1, hb2⟩]

/-- The token document decodes as one four-entry map with nothing left
over, at any sufficient fuel. -/
theorem unpackN_packToken (M : Nat) (t : TokenFields)
    (hh : t.hostname.length < 4294967296)
    (hf : t.fingerprint.length < 4294967296)
    (hi : t.id.length < 4294967296)
    (hs : t.secret.length < 4294967296) :
    unpackN (M + 9) 1 (packToken t) =
      some ([.mmap (tokenEntries t)], []) := by
  have s0 : unpackN M 0 ([] : List Nat) = some ([], []) := by
    simp only [unpackN]
  have s1 : unpackN (M + 1) 1 (packStr t.secret) =
      some ([.mstr t.secret], []) := by
    have h1 := unpackN_packStr M 0 t.secret [] hs [] [] s0
    simpa using h1
  have s2 := unpackN_key (M + 1) 1 "secret" (packStr t.secret)
    (by decide) _ _ s1
  have s3 := unpackN_packStr (M + 2) 2 t.id
    (packStr (strBytes "secret") ++ packStr t.secret) hi _ _ s2
  have s4 := unpackN_key (M + 3) 3 "id"
    (packStr t.id ++ (packStr (strBytes "secret") ++ packStr t.secret))
    (by decide) _ _ s3
  have s5 := unpackN_packBin (M + 4) 4 t.fingerprint
    (packStr (strBytes "id") ++ (packStr t.id ++
      (packStr (strBytes "secret") ++ packStr t.secret))) hf _ _ s4
  have s6 := unpackN_key (M + 5) 5 "fingerprint"
    (packBin t.fingerprint ++ (packStr (strBytes "id") ++ (packStr t.id ++
      (packStr (strBytes "secret") ++ packStr t.secret)))) (by decide) _ _ s5
  have s7 := unpackN_packStr (M + 6) 6 t.hostname
    (packStr (strBytes "fingerprint") ++ (packBin t.fingerprint ++
      (packStr (strBytes "id") ++ (packStr t.id ++
        (packStr (strBytes "secret") ++ packStr t.secret))))) hh _ _ s6
  have s8 : unpackN (M + 8) 8
      (packStr (strBytes "hostname") ++ (packStr t.hostname ++
        (packStr (strBytes "fingerprint") ++ (packBin t.fingerprint ++
          (packStr (strBytes "id") ++ (packStr t.id ++
            (packStr (strBytes "secret") ++ packStr t.secret))))))) =
      some ([.mstr (strBytes "hostname"), .mstr t.hostname,
        .mstr (strBytes "fingerprint"), .mbin t.fingerprint,
        .mstr (strBytes "id"), .mstr t.id,
        .mstr (strBytes "secret"), .mstr t.secret], []) :=
    unpackN_key (M + 7) 7 "hostname"
      (packStr t.hostname ++ (packStr (strBytes "fingerprint") ++
        (packBin t.fingerprint ++ (packStr (strBytes "id") ++ (packStr t.id ++
          (packStr (strBytes "secret") ++ packStr t.secret))))))
      (by decide) _ _ s7
  have h8 : 2 * (132 - 128) = 8 := by norm_num
  have key : unpackN (M + 8 + 1) (0 + 1)
      (132 :: (packStr (strBytes "hostname") ++ (packStr t.hostname ++
        (packStr (strBytes "fingerprint") ++ (packBin t.fingerprint ++
          (packStr (strBytes "id") ++ (packStr t.id ++
            (packStr (strBytes "secret") ++ packStr t.secret)))))))) =
      some ([.mmap (tokenEntries t)], []) := by
    rw [unpackN_fixmap (M + 8) 0 132 _ (by norm_num) (by norm_num), h8, s8]
    simp only [unpackN]
    rfl
  unfold packToken
  simp only [List.append_assoc]
  exact key

/-- `msgpackutils.loads` inverts `msgpackutils.dumps` on the token map. -/
theorem msgpackLoads_packToken (t : TokenFields)
    (hh : t.hostname.length < 4294967296)
    (hf : t.fingerprint.length < 4294967296)
    (hi : t.id.length < 4294967296)
    (hs : t.secret.length < 4294967296) :
    msgpackLoads (packToken t) = .ok (.map (tokenEntries t)) := by
  have h9 : 9 ≤ (packToken t).length := by
    have hk1 : (packStr (strBytes "hostname")).length = 9 := by decide
    simp only [packToken, List.length_cons, List.length_append]
    omega
  obtain ⟨M, hM⟩ : ∃ M, (packToken t).length + 1 = M + 9 :=
    ⟨(packToken t).length - 8, by omega⟩
  unfold msgpackLoads
  rw [hM, unpackN_packToken M t hh hf hi hs]

/-- The connection string is pure ASCII, so the client's
`answer.encode('ascii')` succeeds on it. -/
theorem pyEncodeAscii_connString (t : TokenFields)
    (h : ∀ b ∈ packToken t, b < 256) :
    pyEncodeAscii (addComputeConnectionString t) =
      .ok (addComputeConnectionString t) := by
  unfold pyEncodeAscii addComputeConnectionString
  rw [if_pos]
  rw [List.all_eq_true]
  intro c hcmem
  simpa using b64encode_chars_lt_128 _ h c hcmem

end MsgpackLemmas

/-! ## Hex codec (`bytes.hex()` / `bytes.fromhex`)

Used by `cluster_tls.generate_selfsigned` (stores
`cert.fingerprint(SHA256()).hex()` in configuration) and by
`add_compute` (`bytes.fromhex(config_get('config.cluster.fingerprint'))`).
`bytes.fromhex`'s tolerance for ASCII whitespace between byte pairs is
not modelled; no stored fingerprint contains whitespace. -/

def hexDigitChar (n : Nat) : Nat := if n < 10 then 48 + n else 87 + n

/-- `bytes.hex()`: lowercase hex, two digits per byte. -/
def bytesHex : List Nat → List Nat
  | [] => []
  | b :: bs => hexDigitChar (b / 16) :: hexDigitChar (b % 16) :: bytesHex bs

def hexDigitVal (c : Nat) : Option Nat :=
  if 48 ≤ c ∧ c ≤ 57 then some (c - 48)
  else if 97 ≤ c ∧ c ≤ 102 then some (c - 87)
  else if 65 ≤ c ∧ c ≤ 70 then some (c - 55)
  else none

/-- `bytes.fromhex`: pairs of hex digits; odd length or a non-hex digit
raises `ValueError` (modelled as `none`). -/
def bytesFromHex : List Nat → Option (List Nat)
  | [] => some []
  | c1 :: c2 :: rest =>
    match hexDigitVal c1, hexDigitVal c2, bytesFromHex rest with
    | some h1, some h2, some tl => some ((h1 * 16 + h2) :: tl)
    | _, _, _ => none
  | [_] => none

theorem hexDigit_inverse : ∀ n < 16, hexDigitVal (hexDigitChar n) = some n := by
  decide

theorem bytesFromHex_bytesHex (bs : List Nat) (h : ∀ b ∈ bs, b < 256) :
    bytesFromHex (bytesHex bs) = some bs := by
  induction bs with
  | nil => simp [bytesHex, bytesFromHex]
  | cons b bs ih =>
    have hb := h b (by simp)
    have i1 := hexDigit_inverse (b / 16) (by omega)
    have i2 := hexDigit_inverse (b % 16) (by omega)
    have ihr := ih (fun y hy => h y (by simp [hy]))
    simp only [bytesHex, bytesFromHex, i1, i2, ihr]
    simp only [Option.some.injEq, List.cons.injEq, and_true]
    omega

theorem bytesHex_length (bs : List Nat) : (bytesHex bs).length = 2 * bs.length := by
  induction bs with
  | nil => simp [bytesHex]
  | cons b bs ih => simp [bytesHex, ih]; omega

/-! ## `netaddr` and hostname validation

`netaddr.valid_ipv4(addr, INET_PTON)` for a `str` argument is a strict
dotted quad (four decimal parts, each `0..255`, no leading zeros);
netaddr reports a non-`str` argument as an invalid address (returns
`False`).  `valid_ipv6` is only consulted after `valid_ipv4` returned
`False`; no theorem in this file depends on its exact grammar, so it is
approximated by "contains a colon, hex digits and colons only". -/

def isDigit (c : Nat) : Bool := 48 ≤ c && c ≤ 57

def isAlpha (c : Nat) : Bool := (65 ≤ c && c ≤ 90) || (97 ≤ c && c ≤ 122)

def isHexChar (c : Nat) : Bool :=
  isDigit c || (97 ≤ c && c ≤ 102) || (65 ≤ c && c ≤ 70)

/-- Split a code-point list at `.` (46), keeping empty groups, like
CPython `str.split('.')`. -/
def splitOnDot : List Nat → List (List Nat)
  | [] => [[]]
  | c :: rest =>
    match splitOnDot rest with
    | g :: gs => if c = 46 then [] :: g :: gs else (c :: g) :: gs
    | [] => [[c]]

def decimalVal (p : List Nat) : Nat := p.foldl (fun acc c => acc * 10 + (c - 48)) 0

def ipv4Part (p : List Nat) : Bool :=
  !p.isEmpty && p.length ≤ 3 && p.all isDigit &&
    (p.length == 1 || p.headD 0 != 48) && decimalVal p ≤ 255

def validIpv4Str (s : List Nat) : Bool :=
  let parts := splitOnDot s
  parts.length == 4 && parts.all ipv4Part

def validIpv6Str (s : List Nat) : Bool :=
  s.contains 58 && s.all (fun c => isHexChar c || c == 58)

/-! ## `ConnectionString` (clustering.py)

The validator operates on the decoded msgpack values; Python's dynamic
typing is mirrored by case analysis on `MVal`: `len()` is defined for
`str`, `bytes`, `list` and `dict` and raises `TypeError` for `None`,
booleans, numbers and the registry-decoded ext objects; `bytes` have an
`.endswith` that rejects a `str` argument with `TypeError`; lists,
dicts and ext objects have no `.endswith`/`.hex` at all
(`AttributeError`). -/

/-- `len()` of a decoded msgpack value.  For a map the model counts its
retained pairs where Python counts distinct keys; no theorem observes
`len` of a map entry, and emptiness (the only map observation the
hostname path makes) coincides. -/
def pyLen : MVal → Except PyExc Nat
  | .mstr s => .ok s.length
  | .mbin b => .ok b.length
  | .marr l => .ok l.length
  | .mmap m => .ok m.length
  | _ => .error ⟨.typeError⟩

/-- `ConnectionString._validate_address` (lines 168–173).  `netaddr`
wraps every parse failure — including a non-`str` argument — in
`AddrFormatError`, so `valid_ipv4`/`valid_ipv6` return `False` on
non-strings and the method's own `ValueError` is raised. -/
def validateAddress (address : MVal) : Except PyExc Unit :=
  match address with
  | .mstr s =>
    if validIpv4Str s || validIpv6Str s then .ok ()
    else .error ⟨.valueError⟩        -- '... is not a valid IPv4 or IPv6 address.'
  | _ => .error ⟨.valueError⟩        -- None check, or netaddr says invalid

/-- One DNS label against `(?!-)[A-Z0-9-]{1,63}(?<!-)$` (IGNORECASE). -/
def labelOk (l : List Nat) : Bool :=
  !l.isEmpty && l.length ≤ 63 && l.all (fun c => isDigit c || isAlpha c || c == 45) &&
    l.headD 0 != 45 && l.getLastD 0 != 45

/-- `hostname[:-1] if hostname.endswith('.') else hostname` (lines
149–154). -/
def hostnameStripDot (s : List Nat) : List Nat :=
  if s.getLastD 0 = 46 then s.dropLast else s

/-- `ConnectionString._validate_hostname` (lines 144–166) on a `str`. -/
def validateHostnameStr (s : List Nat) : Except PyExc Unit :=
  if s.length = 0 then .error ⟨.valueError⟩
  else if 253 < (hostnameStripDot s).length then .error ⟨.valueError⟩
  else if !((splitOnDot (hostnameStripDot s)).getLastD []).any
      (fun c => isAlpha c || c == 45) then
    .error ⟨.valueError⟩   -- no non-numeric character in the TLD part
  else if (splitOnDot (hostnameStripDot s)).any (fun l => !labelOk l) then
    .error ⟨.valueError⟩
  else .ok ()

/-- `ConnectionString._validate_hostname`, with Python dynamic typing:
`None` fails the explicit check; a nonempty `bytes` raises `TypeError`
at `hostname.endswith('.')` (`bytes.endswith` wants `bytes`); a
nonempty list or dict has `len` but no `.endswith`, raising
`AttributeError`; values without `len` (booleans, numbers, ext objects)
raise `TypeError` at `len(hostname)`. -/
def validateHostname (h : MVal) : Except PyExc Unit :=
  match h with
  | .mnil => .error ⟨.valueError⟩
  | .mstr s => validateHostnameStr s
  | .mbin b => if b.length = 0 then .error ⟨.valueError⟩ else .error ⟨.typeError⟩
  | .marr l => if l.length = 0 then .error ⟨.valueError⟩ else .error ⟨.attributeError⟩
  | .mmap m => if m.length = 0 then .error ⟨.valueError⟩ else .error ⟨.attributeError⟩
  | _ => .error ⟨.typeError⟩

/-- `ConnectionString._validate_fingerprint` (lines 175–181): only a
length check, with **no** `None` guard — `len(None)` raises `TypeError`. -/
def validateFingerprint (fp : MVal) : Except PyExc Unit :=
  match pyLen fp with
  | .error e => .error e
  | .ok n => if n = 32 then .ok () else .error ⟨.valueError⟩

/-- `ConnectionString._validate_credential_id` (lines 183–193). -/
def validateCredentialId (v : MVal) : Except PyExc Unit :=
  match v with
  | .mnil => .error ⟨.valueError⟩   -- explicit None check
  | _ =>
    match pyLen v with
    | .error e => .error e
    | .ok n => if n = 32 then .ok () else .error ⟨.valueError⟩

/-- `ConnectionString._validate_credential_secret` (lines 195–205). -/
def validateCredentialSecret (v : MVal) : Except PyExc Unit :=
  match v with
  | .mnil => .error ⟨.valueError⟩
  | _ =>
    match pyLen v with
    | .error e => .error e
    | .ok n => if n = 32 then .ok () else .error ⟨.valueError⟩

/-- The messages printed to stderr by `_validate`, identified by print
site (the interpolated text is elided). -/
inductive ValidationMsg where
  | nonAsciiConnectionString       -- line 61  (except TypeError)
  | extraDataInConnectionString    -- lines 70/76 (ExtraData / ValueError)
  | invalidConnectionStringFormat  -- line 82  (FormatError)
  | unexpectedDecodeError          -- line 88  (except Exception)
  | invalidHostname                -- line 112
  | invalidFingerprint             -- line 120
  | invalidCredentialId            -- line 129
  | invalidCredentialSecret        -- line 137
  deriving DecidableEq, Repr

/-- Observable side effects of the init/join flow.  `netConnect` is
emitted only by the Join Client's `cluster.client.join` (the
`urllib3.HTTPSConnectionPool(...).urlopen` call); nothing in
`ConnectionString` can emit it. -/
inductive Effect where
  | printErr (m : ValidationMsg)
  | configSet (key : String) (value : MVal)
  | netConnect (host : List Nat) (fingerprintHex : List Nat)

/-- Outcome type of `_validate`: the effect trace so far, and either a
propagated Python exception or the `(answer, accepted)` pair returned to
`ask`, together with the `self._conn_info` field (assigned only on
acceptance). -/
def VOut : Type :=
  List Effect × Except PyExc ((List Nat × Bool) × Option (List (MVal × MVal)))

/-- Field-validation stages of `_validate` (lines 116–123): fingerprint. -/
def fingerprintStage (answer : List Nat) (ci : List (MVal × MVal)) : VOut :=
  match validateFingerprint (pyDictGet ci (strBytes "fingerprint")) with
  | .ok _ =>
    match validateCredentialId (pyDictGet ci (strBytes "id")) with
    | .ok _ =>
      match validateCredentialSecret (pyDictGet ci (strBytes "secret")) with
      | .ok _ => ([], .ok ((answer, true), some ci))
      | .error e =>
        if e.cls.isSubclassOf .valueError then
          ([.printErr .invalidCredentialSecret], .ok ((answer, false), none))
        else ([], .error e)
    | .error e =>
      if e.cls.isSubclassOf .valueError then
        ([.printErr .invalidCredentialId], .ok ((answer, false), none))
      else ([], .error e)
  | .error e =>
    if e.cls.isSubclassOf .valueError then
      ([.printErr .invalidFingerprint], .ok ((answer, false), none))
    else ([], .error e)   -- TypeError from len(None) propagates out of ask()

/-- Hostname stage of `_validate` (lines 99–114), then the field stages. -/
def connInfoValidate (answer : List Nat) (ci : List (MVal × MVal)) : VOut :=
  match validateAddress (pyDictGet ci (strBytes "hostname")) with
  | .ok _ => fingerprintStage answer ci
  | .error e =>
    if e.cls.isSubclassOf .valueError then
      match validateHostname (pyDictGet ci (strBytes "hostname")) with
      | .ok _ => fingerprintStage answer ci
      | .error e2 =>
        if e2.cls.isSubclassOf .valueError then
          ([.printErr .invalidHostname], .ok ((answer, false), none))
        else ([], .error e2)  -- TypeError on a bytes hostname propagates
    else ([], .error e)

/-- `ConnectionString._validate` (lines 56–142). -/
def connStringValidate (answer : List Nat) : VOut :=
  match decodeAsBytes answer with
  | .error e =>
    -- source: `except TypeError:`; in Python 3 neither UnicodeEncodeError
    -- nor binascii.Error is a TypeError, so they propagate.
    if e.cls.isSubclassOf .typeError then
      ([.printErr .nonAsciiConnectionString], .ok ((answer, false), none))
    else ([], .error e)
  | .ok connStrBytes =>
    match msgpackLoads connStrBytes with
    | .error e =>
      if e.cls.isSubclassOf .msgpackExtraData then
        ([.printErr .extraDataInConnectionString], .ok ((answer, false), none))
      else if e.cls.isSubclassOf .valueError then
        ([.printErr .extraDataInConnectionString], .ok ((answer, false), none))
      else if e.cls.isSubclassOf .msgpackFormatError then
        ([.printErr .invalidConnectionStringFormat], .ok ((answer, false), none))
      else   -- except Exception
        ([.printErr .unexpectedDecodeError], .ok ((answer, false), none))
    | .ok (.scalar _) => ([], .error ⟨.attributeError⟩)  -- conn_info.get on a non-dict
    | .ok (.map ci) => connInfoValidate answer ci

structure SemVer where
  major : Nat
  minor : Nat
  patch : Nat
  deriving DecidableEq, Repr

/-- The request's JSON object, as far as the handler reads it:
`req_json.get('credential-id')` / `.get('credential-secret')` (an absent
key gives `None`). -/
structure ReqJson where
  credentialId : Option (List Nat)
  credentialSecret : Option (List Nat)
  deriving DecidableEq, Repr

/-- Python truthiness of `.get`'s result: `None` and the empty string are
falsy (`if not credential_id or not credential_secret`). -/
def pyTruthy : Option (List Nat) → Bool
  | none => false
  | some s => !s.isEmpty

/-- Outcome of `keystone_client.get(f'{keystone_base_url}/auth/catalog')`
(the auth probe), abstracting the external identity provider. -/
inductive KeystoneOutcome where
  | success
  | authorizationFailure   -- kc_exceptions.AuthorizationFailure
  | unauthorizedErr        -- kc_exceptions.Unauthorized
  | valueErr               -- ValueError
  | connectionErr          -- kc_exceptions.ConnectionError
  | sslErr                 -- kc_exceptions.SSLError
  deriving DecidableEq, Repr

structure JoinRequest where
  /-- `request.headers.get('API-Version')`, abstracted to the parse
  outcome: `none` = header absent; `some none` = present but
  `semantic_version.Version` raised `ValueError`; `some (some v)` =
  parsed. -/
  apiVersion : Option (Option SemVer)
  /-- whether the request declares `Content-Type: application/json`. -/
  contentTypeJson : Bool
  /-- JSON parse outcome of the body (consulted by Flask only when the
  content type is `application/json`): `none` = invalid JSON. -/
  bodyJson : Option ReqJson
  /-- whether the `v3.ApplicationCredential` constructor raises. -/
  authCtorRaises : Bool
  /-- whether the `session.Session` constructor raises. -/
  sessionCtorRaises : Bool
  /-- whether the `v3client.Client` constructor raises. -/
  clientCtorRaises : Bool
  /-- the identity-provider probe outcome. -/
  keystone : KeystoneOutcome
  /-- `json.dumps(join_info())`, the configuration snapshot body. -/
  joinInfoBody : List Nat
  deriving Repr

/-- The `APIException` subclasses of daemon.py (lines 31–94), with their
`status_code` and `message` attributes. -/
inductive ApiError where
  | apiVersionMissing
  | apiVersionInvalid
  | apiVersionDropped
  | apiVersionNotImplemented
  | invalidJSONInRequest
  | incorrectContentType
  | missingAuthDataInRequest
  | invalidAuthDataFormatInRequest
  | invalidAuthDataInRequest
  | authorizationFailed
  | unexpectedError
  deriving DecidableEq, Repr

def ApiError.statusCode : ApiError → Nat
  | .apiVersionMissing => 400
  | .apiVersionInvalid => 400
  | .apiVersionDropped => 410
  | .apiVersionNotImplemented => 501
  | .invalidJSONInRequest => 400
  | .incorrectContentType => 400
  | .missingAuthDataInRequest => 400
  | .invalidAuthDataFormatInRequest => 400
  | .invalidAuthDataInRequest => 400
  | .authorizationFailed => 401
  | .unexpectedError => 500

def ApiError.message : ApiError → String
  | .apiVersionMissing => "An API version was not specified in the request."
  | .apiVersionInvalid => "Invalid API version was specified in the request."
  | .apiVersionDropped => "The requested join API version is no longer supported."
  | .apiVersionNotImplemented => "The requested join API version is not yet implemented."
  | .invalidJSONInRequest => "The request includes invalid JSON."
  | .incorrectContentType =>
    "The request does not have a Content-Type header set to application/json."
  | .missingAuthDataInRequest =>
    "The request does not have the required authentication data."
  | .invalidAuthDataFormatInRequest =>
    "The authentication data in the request has invalid format."
  | .invalidAuthDataInRequest =>
    "The authentication data in the request is invalid."
  | .authorizationFailed =>
    "Failed to pass authorization using the data provided in the request"
  | .unexpectedError =>
    "The clustering server has encountered an unexpected error while handling the request."

/-- How a single `join` invocation ends: an `APIException` raised (and
turned into a JSON error response by the registered Flask error
handlers), a *returned* exception object (the `return
MissingAuthDataInRequest()` path, line 211), or a 200 body. -/
inductive HandlerOutcome where
  | raised : ApiError → HandlerOutcome
  | returnedObject : ApiError → HandlerOutcome
  | ok : List Nat → HandlerOutcome
  deriving DecidableEq, Repr

/-- The server's `API_VERSION = semantic_version.Version('1.0.0')`. -/
def serverApiVersion : SemVer := ⟨1, 0, 0⟩

/-- `request.json` behaviour (daemon.py lines 193–202 with the Flask
semantics restated in the source's comment). -/
def requestJson (r : JoinRequest) : Except ApiError (Option ReqJson) :=
  if r.contentTypeJson then
    match r.bodyJson with
    | none => .error .invalidJSONInRequest   -- BadRequest caught, re-raised
    | some j => .ok (some j)
  else .ok none                              -- request.json is None

/-- The body of `join` after the version gates (daemon.py lines 189–277). -/
def joinAfterVersion (r : JoinRequest) : HandlerOutcome :=
  match requestJson r with
  | .error e => .raised e
  | .ok none => .raised .incorrectContentType
  | .ok (some j) =>
    if !pyTruthy j.credentialId || !pyTruthy j.credentialSecret then
      -- BUG preserved from the source: `return MissingAuthDataInRequest()`
      -- returns the exception object instead of raising it.
      .returnedObject .missingAuthDataInRequest
    else if r.authCtorRaises then .raised .invalidAuthDataInRequest
    else if r.sessionCtorRaises then .raised .unexpectedError
    else if r.clientCtorRaises then .raised .unexpectedError
    else
      match r.keystone with
      | .authorizationFailure => .raised .authorizationFailed
      | .unauthorizedErr => .raised .authorizationFailed
      | .valueErr => .raised .unexpectedError
      | .connectionErr => .raised .unexpectedError
      | .sslErr => .raised .unexpectedError
      | .success => .ok r.joinInfoBody

/-- `daemon.join`, the `POST /join` handler (daemon.py lines 161–277). -/
def joinHandler (r : JoinRequest) : HandlerOutcome :=
  match r.apiVersion with
  | none => .raised .apiVersionMissing
  | some none => .raised .apiVersionInvalid
  | some (some v) =>
    if serverApiVersion.major < v.major then .raised .apiVersionNotImplemented
    else if v.major < serverApiVersion.major then .raised .apiVersionDropped
    else joinAfterVersion r

/-- HTTP status of the handler outcome.  A raised `APIException` goes
through the registered error handler (`_handle_api_version_exception`,
`jsonify` + `status_code`); a *returned* exception object is not a valid
Flask response — Flask raises `TypeError` while building the response,
which surfaces as a generic `500 Internal Server Error`. -/
def httpStatus : HandlerOutcome → Nat
  | .raised e => e.statusCode
  | .returnedObject _ => 500
  | .ok _ => 200

/-- Response body description: the JSON error document for raised
exceptions (`jsonify(error.to_dict())`, i.e. `{"message": …}`), Flask's
internal error page for the returned-object bug, the snapshot otherwise. -/
inductive HttpBody where
  | jsonMessage : String → HttpBody
  | frameworkErrorPage : HttpBody
  | raw : List Nat → HttpBody
  deriving DecidableEq, Repr

def httpBody : HandlerOutcome → HttpBody
  | .raised e => .jsonMessage e.message
  | .returnedObject _ => .frameworkErrorPage
  | .ok b => .raw b

/-! ## Join Client: `client.join` (client.py lines 16–99)

The network interaction is abstracted to the outcome of
`conn_pool.urlopen`: either a response (status + data) or a
`MaxRetryError` whose `reason` may or may not be an
`urllib3.exceptions.SSLError` (the fingerprint-pinning failure mode, per
urllib3's `assert_fingerprint` and the source's comment, lines 35–36). -/

inductive UrlopenOutcome where
  | response (status : Nat) (data : List Nat)
  | maxRetryError (reasonIsSSLError : Bool)
  deriving DecidableEq, Repr

/-- The errors `cluster.client.join` can raise, one constructor per
`raise` site. -/
inductive ClientJoinError where
  | fingerprintMismatch (msg : String)     -- lines 52–58
  | connectionFailure (msg : String)       -- lines 59–60
  | unauthorizedRequest (msg : Option (List Nat))  -- lines 62–74
  | unexpectedStatus (status : Nat)        -- lines 75–77
  | invalidUtf8Response                    -- lines 79–83
  | emptyResponse                          -- lines 84–87
  deriving DecidableEq, Repr

/-- The fingerprint-mismatch message (client.py lines 52–58), naming the
two likely causes: a wrong token, or a man-in-the-middle. -/
def fingerprintMismatchMsg : String :=
  "The actual clustering service certificate fingerprint did not match the expected one, please make sure that: (1) that a correct token was specified during initialization; (2) a MITM attacks are not performed against HTTPS requests (including transparent proxies)."

/-- The generic connection-failure message (client.py lines 59–60). -/
def connectionFailureMsg : String :=
  "Could not retrieve a response from the clustering service."

/-- `client.join`'s handling of the `urlopen` outcome (client.py lines
43–87), through the status checks; a 200 response is summarised by its
body. -/
def clientJoinHandle (o : UrlopenOutcome) : Except ClientJoinError (List Nat) :=
  match o with
  | .maxRetryError reasonIsSSL =>
    if reasonIsSSL then .error (.fingerprintMismatch fingerprintMismatchMsg)
    else .error (.connectionFailure connectionFailureMsg)
  | .response status data =>
    if status == 401 then .error (.unauthorizedRequest (if data.isEmpty then none else some data))
    else if status != 200 then .error (.unexpectedStatus status)
    else if data.isEmpty then .error .emptyResponse
    else .ok data

/-! ## Certificate Provisioner: `cluster_tls.generate_selfsigned`
(cluster_tls.py lines 18–76)

State = the certificate file, key file and `config.cluster.fingerprint`
configuration entry.  Randomness and X.509 construction are abstracted
into `CertMaterial` (the key/cert bytes and the certificate's SHA-256
digest that a fresh generation would produce).  The Python function
returns `None` on every path: the early-return branch (line 38) is a bare
`return`, and the generation branch falls off the end. -/

structure TlsState where
  certFile : Option (List Nat)
  keyFile : Option (List Nat)
  fingerprintCfg : Option (List Nat)
  deriving DecidableEq, Repr

structure CertMaterial where
  certBytes : List Nat
  keyBytes : List Nat
  certSha256 : List Nat
  deriving DecidableEq, Repr

/-- `generate_selfsigned`: first component is the Python return value
(always `None`), second the post-state. -/
def generate_selfsigned (fresh : CertMaterial) (st : TlsState) :
    Option (List Nat) × TlsState :=
  if st.certFile.isSome && st.keyFile.isSome then (none, st)
  else
    (none,
      { certFile := some fresh.certBytes
        keyFile := some fresh.keyBytes
        fingerprintCfg := some (bytesHex fresh.certSha256) })

/-- The `fingerprint` entry `add_compute` puts into the token dict
(add_compute.py line 101):
`bytes.fromhex(config_get('config.cluster.fingerprint'))`. -/
def addComputeFingerprint (storedHex : List Nat) : Option (List Nat) :=
  bytesFromHex storedHex

/-! ## Supporting lemmas for the claims -/

theorem beBytes_lt (w n : Nat) : ∀ x ∈ beBytes w n, x < 256 := by
  induction w generalizing n with
  | zero => simp [beBytes]
  | succ w ih =>
    intro x hx
    simp only [beBytes, List.mem_cons] at hx
    rcases hx with rfl | hx
    · exact Nat.mod_lt _ (by norm_num)
    · exact ih n x hx

theorem packStr_bytes (s : List Nat) (h : ∀ b ∈ s, b < 256) :
    ∀ x ∈ packStr s, x < 256 := by
  intro x hx
  unfold packStr at hx
  by_cases h1 : s.length ≤ 31
  · rw [if_pos h1] at hx
    rcases List.mem_cons.mp hx with rfl | hx
    · omega
    · exact h x hx
  · rw [if_neg h1] at hx
    by_cases h2 : s.length ≤ 255
    · rw [if_pos h2] at hx
      rcases List.mem_cons.mp hx with rfl | hx
      · omega
      · rcases List.mem_cons.mp hx with rfl | hx
        · omega
        · exact h x hx
    · rw [if_neg h2] at hx
      by_cases h3 : s.length ≤ 65535
      · rw [if_pos h3] at hx
        rcases List.mem_cons.mp hx with rfl | hx
        · omega
        · rcases List.mem_append.mp hx with hx | hx
          · exact beBytes_lt 2 s.length x hx
          · exact h x hx
      · rw [if_neg h3] at hx
        rcases List.mem_cons.mp hx with rfl | hx
        · omega
        · rcases List.mem_append.mp hx with hx | hx
          · exact beBytes_lt 4 s.length x hx
          · exact h x hx

theorem packBin_bytes (s : List Nat) (h : ∀ b ∈ s, b < 256) :
    ∀ x ∈ packBin s, x < 256 := by
  intro x hx
  unfold packBin at hx
  by_cases h2 : s.length ≤ 255
  · rw [if_pos h2] at hx
    rcases List.mem_cons.mp hx with rfl | hx
    · omega
    · rcases List.mem_cons.mp hx with rfl | hx
      · omega
      · exact h x hx
  · rw [if_neg h2] at hx
    by_cases h3 : s.length ≤ 65535
    · rw [if_pos h3] at hx
      rcases List.mem_cons.mp hx with rfl | hx
      · omega
      · rcases List.mem_append.mp hx with hx | hx
        · exact beBytes_lt 2 s.length x hx
        · exact h x hx
    · rw [if_neg h3] at hx
      rcases List.mem_cons.mp hx with rfl | hx
      · omega
      · rcases List.mem_append.mp hx with hx | hx
        · exact beBytes_lt 4 s.length x hx
        · exact h x hx

theorem packToken_bytes (t : TokenFields)
    (hb : ∀ b ∈ t.hostname ++ t.fingerprint ++ t.id ++ t.secret, b < 256) :
    ∀ x ∈ packToken t, x < 256 := by
  have bh : ∀ b ∈ t.hostname, b < 256 := fun b m => hb b (by simp [m])
  have bf : ∀ b ∈ t.fingerprint, b < 256 := fun b m => hb b (by simp [m])
  have bi : ∀ b ∈ t.id, b < 256 := fun b m => hb b (by simp [m])
  have bs2 : ∀ b ∈ t.secret, b < 256 := fun b m => hb b (by simp [m])
  have kh : ∀ b ∈ strBytes "hostname", b < 256 := by decide
  have kf : ∀ b ∈ strBytes "fingerprint", b < 256 := by decide
  have ki : ∀ b ∈ strBytes "id", b < 256 := by decide
  have ks : ∀ b ∈ strBytes "secret", b < 256 := by decide
  intro x hx
  simp only [packToken, List.append_assoc, List.mem_cons, List.mem_append] at hx
  rcases hx with rfl | h1 | h1 | h1 | h1 | h1 | h1 | h1 | h1
  · omega
  · exact packStr_bytes _ kh x h1
  · exact packStr_bytes _ bh x h1
  · exact packStr_bytes _ kf x h1
  · exact packBin_bytes _ bf x h1
  · exact packStr_bytes _ ki x h1
  · exact packStr_bytes _ bi x h1
  · exact packStr_bytes _ ks x h1
  · exact packStr_bytes _ bs2 x h1

/-- Decoding the connection string as the client does: ASCII-encode,
base64-decode, msgpack-deserialize. -/
theorem decode_encoded_token (t : TokenFields)
    (hb : ∀ b ∈ t.hostname ++ t.fingerprint ++ t.id ++ t.secret, b < 256)
    (hh : t.hostname.length < 4294967296)
    (hf : t.fingerprint.length < 4294967296)
    (hi : t.id.length < 4294967296)
    (hs : t.secret.length < 4294967296) :
    (decodeAsBytes (addComputeConnectionString t)).bind msgpackLoads =
      .ok (.map (tokenEntries t)) := by
  have hbt := packToken_bytes t hb
  have h1 : pyEncodeAscii (addComputeConnectionString t) =
      .ok (addComputeConnectionString t) := pyEncodeAscii_connString t hbt
  have h2 : pyB64decode (b64encode (packToken t)) = .ok (packToken t) :=
    pyB64decode_b64encode _ hbt
  have h2b : pyB64decode (addComputeConnectionString t) = .ok (packToken t) := h2
  have h3 := msgpackLoads_packToken t hh hf hi hs
  unfold decodeAsBytes
  rw [h1]
  simp only [h2b, Except.bind, h3]

end Microstack

namespace Microstack

/-! ## The claims -/

/-- C1: for every token field set {hostname string, 32-byte fingerprint,
32-character credential id, 32-character credential secret}, msgpack-
serializing it and base64-encoding it as `add_compute` does, then
base64-decoding and msgpack-deserializing it as
`ConnectionString._validate` does, yields a map whose `hostname`,
`fingerprint`, `id` and `secret` entries equal the original four fields
exactly. -/
theorem token_roundtrip (t : TokenFields)
    (hb : ∀ b ∈ t.hostname ++ t.fingerprint ++ t.id ++ t.secret, b < 256)
    (hh : t.hostname.length < 4294967296)
    (hf : t.fingerprint.length = 32)
    (hi : t.id.length = 32)
    (hs : t.secret.length = 32) :
    (decodeAsBytes (addComputeConnectionString t)).bind msgpackLoads =
      .ok (.map (tokenEntries t)) ∧
    pyDictGet (tokenEntries t) (strBytes "hostname") = .mstr t.hostname ∧
    pyDictGet (tokenEntries t) (strBytes "fingerprint") = .mbin t.fingerprint ∧
    pyDictGet (tokenEntries t) (strBytes "id") = .mstr t.id ∧
    pyDictGet (tokenEntries t) (strBytes "secret") = .mstr t.secret :=
  ⟨decode_encoded_token t hb hh (by omega) (by omega) (by omega),
   rfl, rfl, rfl, rfl⟩

/-- The concrete token used to witness C1. -/
def w1Token : TokenFields :=
  { hostname := strBytes "10.20.20.1"
    fingerprint := List.replicate 32 171
    id := List.replicate 32 97
    secret := List.replicate 32 98 }

/-- C1 witness: the round-trip theorem applied at a concrete token. -/
theorem token_roundtrip_witness :
    (decodeAsBytes (addComputeConnectionString w1Token)).bind msgpackLoads =
      .ok (.map (tokenEntries w1Token)) ∧
    pyDictGet (tokenEntries w1Token) (strBytes "hostname") = .mstr w1Token.hostname ∧
    pyDictGet (tokenEntries w1Token) (strBytes "fingerprint") = .mbin w1Token.fingerprint ∧
    pyDictGet (tokenEntries w1Token) (strBytes "id") = .mstr w1Token.id ∧
    pyDictGet (tokenEntries w1Token) (strBytes "secret") = .mstr w1Token.secret :=
  token_roundtrip w1Token (by decide) (by decide) (by decide) (by decide) (by decide)

/-- C2: when the client's connection attempt fails with a `MaxRetryError`
whose reason is an `SSLError` (the fingerprint-pinning failure), `join`
raises the dedicated fingerprint-mismatch error, whose message names the
two likely causes (a wrong/stale token — "a correct token was specified
during initialization" — and active interception — "MITM attacks …
(including transparent proxies)"); any other `MaxRetryError` raises the
generic connection-failure error, and the two error kinds are distinct
(different constructors, different messages). -/
theorem client_fingerprint_mismatch_distinct :
    (∀ o : UrlopenOutcome, o = .maxRetryError true →
      clientJoinHandle o = .error (.fingerprintMismatch fingerprintMismatchMsg)) ∧
    (∀ o : UrlopenOutcome, o = .maxRetryError false →
      clientJoinHandle o = .error (.connectionFailure connectionFailureMsg)) ∧
    (∀ m1 m2, ClientJoinError.fingerprintMismatch m1 ≠ .connectionFailure m2) ∧
    fingerprintMismatchMsg ≠ connectionFailureMsg := by
  refine ⟨?_, ?_, ?_, ?_⟩
  · rintro o rfl; rfl
  · rintro o rfl; rfl
  · intro m1 m2 hcontra; cases hcontra
  · decide

/-- C2 witness: the theorem applied at the two concrete outcomes. -/
theorem client_fingerprint_mismatch_distinct_witness :
    clientJoinHandle (.maxRetryError true) =
      .error (.fingerprintMismatch fingerprintMismatchMsg) ∧
    clientJoinHandle (.maxRetryError false) =
      .error (.connectionFailure connectionFailureMsg) :=
  ⟨client_fingerprint_mismatch_distinct.1 _ rfl,
   client_fingerprint_mismatch_distinct.2.1 _ rfl⟩

/-- C3: version policy of `POST /join` for server major version `M = 1`:
missing header ⇒ 400 `APIVersionMissing`; unparseable header ⇒ 400
`APIVersionInvalid`; parsed major `> 1` ⇒ 501 `APIVersionNotImplemented`;
parsed major `< 1` ⇒ 410 `APIVersionDropped`; parsed major `= 1` ⇒ the
handler proceeds to the content and credential checks
(`joinAfterVersion`). -/
theorem join_version_policy (r : JoinRequest) :
    (r.apiVersion = none →
      joinHandler r = .raised .apiVersionMissing ∧
      httpStatus (joinHandler r) = 400) ∧
    (r.apiVersion = some none →
      joinHandler r = .raised .apiVersionInvalid ∧
      httpStatus (joinHandler r) = 400) ∧
    (∀ v, r.apiVersion = some (some v) → 1 < v.major →
      joinHandler r = .raised .apiVersionNotImplemented ∧
      httpStatus (joinHandler r) = 501) ∧
    (∀ v, r.apiVersion = some (some v) → v.major < 1 →
      joinHandler r = .raised .apiVersionDropped ∧
      httpStatus (joinHandler r) = 410) ∧
    (∀ v, r.apiVersion = some (some v) → v.major = 1 →
      joinHandler r = joinAfterVersion r) := by
  refine ⟨?_, ?_, ?_, ?_, ?_⟩
  · intro h; simp [joinHandler, h, httpStatus, ApiError.statusCode]
  · intro h; simp [joinHandler, h, httpStatus, ApiError.statusCode]
  · intro v h hv
    have h1 : serverApiVersion.major < v.major := hv
    simp [joinHandler, h, h1, httpStatus, ApiError.statusCode]
  · intro v h hv
    have h1 : ¬ serverApiVersion.major < v.major := by
      simp [serverApiVersion]; omega
    have h2 : v.major < serverApiVersion.major := hv
    simp [joinHandler, h, h1, h2, httpStatus, ApiError.statusCode]
  · intro v h hv
    have h1 : ¬ serverApiVersion.major < v.major := by
      simp [serverApiVersion]; omega
    have h2 : ¬ v.major < serverApiVersion.major := by
      simp [serverApiVersion]; omega
    simp [joinHandler, h, h1, h2]

/-- A baseline request used to witness the server-side claims: well-formed
JSON body with non-empty credentials, no constructor failures, successful
identity-provider probe. -/
def reqBase : JoinRequest :=
  { apiVersion := none
    contentTypeJson := true
    bodyJson := some ⟨some (strBytes "cid"), some (strBytes "csecret")⟩
    authCtorRaises := false
    sessionCtorRaises := false
    clientCtorRaises := false
    keystone := .success
    joinInfoBody := strBytes "snapshot" }

/-- C3 witness: one concrete request per row of the version-policy table. -/
theorem join_version_policy_witness :
    joinHandler reqBase = .raised .apiVersionMissing ∧
    joinHandler { reqBase with apiVersion := some none } =
      .raised .apiVersionInvalid ∧
    joinHandler { reqBase with apiVersion := some (some ⟨2, 0, 0⟩) } =
      .raised .apiVersionNotImplemented ∧
    joinHandler { reqBase with apiVersion := some (some ⟨0, 1, 0⟩) } =
      .raised .apiVersionDropped ∧
    joinHandler { reqBase with apiVersion := some (some ⟨1, 0, 0⟩) } =
      joinAfterVersion { reqBase with apiVersion := some (some ⟨1, 0, 0⟩) } :=
  ⟨((join_version_policy reqBase).1 rfl).1,
   ((join_version_policy _).2.1 rfl).1,
   ((join_version_policy _).2.2.1 ⟨2, 0, 0⟩ rfl (by decide)).1,
   ((join_version_policy _).2.2.2.1 ⟨0, 1, 0⟩ rfl (by decide)).1,
   (join_version_policy _).2.2.2.2 ⟨1, 0, 0⟩ rfl rfl⟩

/-- The C5 failing input: a version-1.0.0, `application/json` request
whose JSON body carries no `credential-id` / `credential-secret`. -/
def reqMissingCreds : JoinRequest :=
  { reqBase with
    apiVersion := some (some ⟨1, 0, 0⟩)
    bodyJson := some ⟨none, none⟩ }

/-- C5: a request that passes the version and content checks but lacks a
non-empty `credential-id`/`credential-secret` does **not** get the
specified 400-with-JSON-message response: the handler *returns* the
`MissingAuthDataInRequest` exception object (daemon.py line 211) instead
of raising it, so Flask fails to build a response and the client sees a
framework 500, not the class's `status_code = 400`. -/
theorem missing_auth_data_returns_object :
    joinHandler reqMissingCreds = .returnedObject .missingAuthDataInRequest ∧
    httpStatus (joinHandler reqMissingCreds) = 500 ∧
    httpBody (joinHandler reqMissingCreds) = .frameworkErrorPage ∧
    ApiError.missingAuthDataInRequest.statusCode = 400 := by
  refine ⟨rfl, rfl, rfl, rfl⟩

/-- The C6 request: header `API-Version: 1.0.0`, `Content-Type:
text/plain`, body `not json` (which would not parse as JSON — the body
parse field is `none`). -/
def reqTextPlain : JoinRequest :=
  { reqBase with
    apiVersion := some (some ⟨1, 0, 0⟩)
    contentTypeJson := false
    bodyJson := none }

/-- C6: with `API-Version: 1.0.0`, `Content-Type: text/plain` and the
unparseable body `not json`, the server responds 400 with the
incorrect-content-type message; the content-type check takes effect
before the body is rejected as invalid JSON (the outcome is
`IncorrectContentType` for *every* body-parse outcome, never
`InvalidJSONInRequest`). -/
theorem content_type_check_precedes_json :
    joinHandler reqTextPlain = .raised .incorrectContentType ∧
    httpStatus (joinHandler reqTextPlain) = 400 ∧
    httpBody (joinHandler reqTextPlain) =
      .jsonMessage "The request does not have a Content-Type header set to application/json." ∧
    joinHandler reqTextPlain ≠ .raised .invalidJSONInRequest ∧
    (∀ bj, joinHandler { reqTextPlain with bodyJson := bj } =
      .raised .incorrectContentType) := by
  refine ⟨rfl, rfl, rfl, by decide, fun bj => rfl⟩

/-- C8 counterexample state: a node whose certificate and key files exist
and whose configuration holds the matching fingerprint. -/
def c8State : TlsState :=
  { certFile := some (strBytes "EXISTING-CERT-PEM")
    keyFile := some (strBytes "EXISTING-KEY-PEM")
    fingerprintCfg := some (bytesHex (List.replicate 32 7)) }

/-- Fresh material that a regeneration would produce (never used in the
early-return branch). -/
def c8Fresh : CertMaterial :=
  ⟨strBytes "NEW-CERT-PEM", strBytes "NEW-KEY-PEM", List.replicate 32 9⟩

/-- C8 counterexample: on a node with an existing pair,
`generate_selfsigned` does **not** return the existing fingerprint — it
is a bare `return` (Python `None`), line 38 of cluster_tls.py. -/
theorem generate_selfsigned_returns_none :
    c8State.fingerprintCfg = some (bytesHex (List.replicate 32 7)) ∧
    (generate_selfsigned c8Fresh c8State).1 = none ∧
    (generate_selfsigned c8Fresh c8State).1 ≠
      some (bytesHex (List.replicate 32 7)) := by
  refine ⟨rfl, rfl, by decide⟩

/-- C8 (amended): calling `generate_selfsigned` when the certificate and
key files already exist performs no regeneration: it returns early (with
Python `None`, not the fingerprint) and leaves the certificate file, the
key file and the stored `config.cluster.fingerprint` value unchanged. -/
theorem generate_selfsigned_idempotent (fresh : CertMaterial) (st : TlsState)
    (hc : st.certFile.isSome = true) (hk : st.keyFile.isSome = true) :
    generate_selfsigned fresh st = (none, st) := by
  unfold generate_selfsigned
  rw [if_pos (by rw [hc, hk]; rfl)]

/-- C8 witness: the amended theorem at the concrete existing-pair state. -/
theorem generate_selfsigned_idempotent_witness :
    generate_selfsigned c8Fresh c8State = (none, c8State) :=
  generate_selfsigned_idempotent c8Fresh c8State (by decide) (by decide)

/-- C10: if the stored `config.cluster.fingerprint` is the value written
by `generate_selfsigned` (the hex encoding of the certificate's SHA-256
digest), then `add_compute`'s `bytes.fromhex` recovers exactly the raw
32-byte digest (`bytes.fromhex` inverts `bytes.hex()`), and that
fingerprint passes `ConnectionString._validate_fingerprint`'s length
check. -/
theorem issuer_fingerprint_valid (fresh : CertMaterial) (st : TlsState)
    (hb : ∀ b ∈ fresh.certSha256, b < 256)
    (hlen : fresh.certSha256.length = 32)
    (hgen : (st.certFile.isSome && st.keyFile.isSome) = false) :
    ((generate_selfsigned fresh st).2).fingerprintCfg =
      some (bytesHex fresh.certSha256) ∧
    addComputeFingerprint (bytesHex fresh.certSha256) =
      some fresh.certSha256 ∧
    validateFingerprint (.mbin fresh.certSha256) = .ok () := by
  refine ⟨?_, ?_, ?_⟩
  · unfold generate_selfsigned
    rw [if_neg (by rw [hgen]; simp)]
  · exact bytesFromHex_bytesHex fresh.certSha256 hb
  · simp [validateFingerprint, pyLen, hlen]

/-- C10 witness: a fresh provisioning on an empty node with a concrete
digest. -/
theorem issuer_fingerprint_valid_witness :
    ((generate_selfsigned c8Fresh ⟨none, none, none⟩).2).fingerprintCfg =
      some (bytesHex c8Fresh.certSha256) ∧
    addComputeFingerprint (bytesHex c8Fresh.certSha256) =
      some c8Fresh.certSha256 ∧
    validateFingerprint (.mbin c8Fresh.certSha256) = .ok () :=
  issuer_fingerprint_valid c8Fresh ⟨none, none, none⟩ (by decide) (by decide)
    (by decide)

/-! ### Case lemmas for the `_validate` stages (C4, C9) -/

/-- C7: the spec's intent is that non-ASCII or malformed-base64 tokens
fail with a client-local token-encoding error reported as a validation
failure; on Python 3 the code does not do this.  `'é'.encode('ascii')`
raises `UnicodeEncodeError` and `b64decode(b'abc')` raises
`binascii.Error` — both `ValueError` subclasses — while `_validate`'s
first handler is `except TypeError:` (written for the Python 2 behaviour
of `b64decode`), so neither error is caught: `_validate` propagates an
unhandled exception instead of printing its non-ASCII message and
returning `(answer, False)`. -/
theorem token_encoding_errors_uncaught :
    connStringValidate (strBytes "é") = ([], .error ⟨.unicodeEncodeError⟩) ∧
    connStringValidate (strBytes "abc") = ([], .error ⟨.binasciiError⟩) ∧
    PyExcClass.unicodeEncodeError.isSubclassOf .typeError = false ∧
    PyExcClass.binasciiError.isSubclassOf .typeError = false ∧
    PyExcClass.unicodeEncodeError.isSubclassOf .valueError = true ∧
    PyExcClass.binasciiError.isSubclassOf .valueError = true := by
  refine ⟨rfl, rfl, by decide, by decide, by decide, by decide⟩

end Microstack
